import Mathlib

/-!
Shallow embedding of `src/ui/icons.py` from CADSystem-Python.

The file under verification is a small icon factory: `_svg_icon` rasterizes
an inline SVG document onto a freshly allocated square `QPixmap` and wraps it
as a `QIcon`; `toolbar_icons` builds ten fixed SVG documents (a shared header
interpolating the requested size, plus literal path fragments) and maps each
icon name to the rendered icon.

Qt objects are modelled symbolically: a pixmap carries its pixel dimensions
and a symbolic content trace (freshly allocated / uniformly filled / an SVG
document rasterized on top of previous content).  Pixel-identity of two
bitmaps reduces to equality of these traces, because the actual pixels are a
deterministic function of (dimensions, fill color, document, antialiasing
hint) computed by Qt.  The module-level binding of `QSvgRenderer` (which the
source sets to `None` when the `PySide6.QtSvg` import fails) is the only
module state; it is threaded explicitly through the embedded functions.
-/

namespace CADIcons

/-- `Qt.GlobalColor`: the code only ever uses `Qt.transparent`; every other
global color is carried as an opaque code. -/
inductive GlobalColor where
  | transparent
  | other (code : Nat)
deriving DecidableEq

/-- Symbolic content of a `QPixmap` pixel grid: freshly allocated (pixels
undefined), uniformly filled with a color (`QPixmap.fill`), or an SVG
document rasterized by `QSvgRenderer.render` (with the painter's
antialiasing hint recorded) on top of the previous content. -/
inductive PixContent where
  | uninit
  | filled (c : GlobalColor)
  | painted (doc : String) (antialias : Bool) (under : PixContent)
deriving DecidableEq

/-- Whether every pixel of the grid is defined: a fresh allocation defines
nothing, a uniform fill defines every pixel, and rasterizing on top keeps
every already-defined pixel defined (painting only adds opaque strokes). -/
def PixContent.allDefined : PixContent → Bool
  | .uninit => false
  | .filled _ => true
  | .painted _ _ under => under.allDefined

/-- A `QPixmap`: pixel dimensions plus symbolic content.  The null pixmap
has width and height `0`. -/
structure QPixmap where
  width : Nat
  height : Nat
  content : PixContent
deriving DecidableEq

/-- `QPixmap(w, h)`: a fresh uninitialized `w × h` pixmap; non-positive
dimensions produce the null pixmap (Qt emits a warning, never raises). -/
def QPixmap.create (w h : Int) : QPixmap :=
  if 0 < w ∧ 0 < h then ⟨w.toNat, h.toNat, .uninit⟩ else ⟨0, 0, .uninit⟩

/-- `QPixmap.isNull`. -/
def QPixmap.isNull (p : QPixmap) : Prop := p.width = 0 ∨ p.height = 0

instance (p : QPixmap) : Decidable p.isNull := by
  unfold QPixmap.isNull; infer_instance

/-- `pixmap.fill(c)`: sets every pixel to `c`; a no-op on the null pixmap
(Qt warns and returns). -/
def QPixmap.fill (p : QPixmap) (c : GlobalColor) : QPixmap :=
  if p.isNull then p else { p with content := .filled c }

/-- `QSvgRenderer(doc).render(painter)` for a `QPainter` opened on `p` with
the antialiasing render hint as recorded: rasterizes `doc` over the current
content.  On the null pixmap the painter fails to activate and rendering is
a no-op (warnings only, no exception). -/
def QPixmap.renderSvg (p : QPixmap) (doc : String) (antialias : Bool) : QPixmap :=
  if p.isNull then p else { p with content := .painted doc antialias p.content }

/-- A `QIcon`: either the empty icon `QIcon()` or an icon wrapping a pixmap
(`QIcon(pixmap)`). -/
inductive QIcon where
  | empty
  | ofPixmap (p : QPixmap)
deriving DecidableEq

/-- `QIcon.isNull`: the empty icon is null, and so is an icon constructed
from the null pixmap. -/
def QIcon.isNull : QIcon → Prop
  | .empty => True
  | .ofPixmap p => p.isNull

/-- Module-level state read by the embedded functions: whether the
`from PySide6.QtSvg import QSvgRenderer` at import time succeeded (on
failure the module binds `QSvgRenderer = None`).  Neither function assigns
any module global, so the state component of each result is the input
state. -/
structure ModuleState where
  qSvgRendererAvailable : Bool
deriving DecidableEq

/-- `_svg_icon(svg, size=24, background=None)`: returns `QIcon()` when the
renderer import failed; otherwise allocates a `size × size` pixmap, fills it
with `Qt.transparent` (or the given background), opens a painter with
antialiasing, renders the SVG document onto it, ends the painter and wraps
the pixmap as a `QIcon`. -/
def svg_icon (st : ModuleState) (svg : String) (size : optParam Int 24)
    (background : optParam (Option GlobalColor) none) : QIcon × ModuleState :=
  if st.qSvgRendererAvailable = false then (QIcon.empty, st)
  else
    let pixmap := QPixmap.create size size
    let pixmap :=
      match background with
      | none => pixmap.fill GlobalColor.transparent
      | some bg => pixmap.fill bg
    let pixmap := pixmap.renderSvg svg true
    (QIcon.ofPixmap pixmap, st)

/-- The shared SVG header `base` built inside `toolbar_icons` (a Python
f-string interpolating `size` twice, as width and height). -/
def base (size : Int) : String :=
  "<svg xmlns=\"http://www.w3.org/2000/svg\" width=\"" ++ toString size
    ++ "\" height=\"" ++ toString size
    ++ "\" viewBox=\"0 0 24 24\" fill=\"none\" stroke=\"black\" stroke-width=\"1.4\" stroke-linecap=\"round\" stroke-linejoin=\"round\">"

/-- The `svgs` dict literal built inside `toolbar_icons`, in insertion
order (Python dicts preserve it). -/
def svgs (size : Int) : List (String × String) :=
  [ ("pan", base size
      ++ "<path d=\"M7 12V6.5a1.8 1.8 0 0 1 3.6 0V12\"/>"
      ++ "<path d=\"M10.6 12V5.5a1.8 1.8 0 0 1 3.6 0V12\"/>"
      ++ "<path d=\"M14.2 12V7.5a1.8 1.8 0 0 1 3.6 0V14\"/>"
      ++ "<path d=\"M6.5 12.5c-1.4-1-3.5-.1-3.5 1.7V16c0 3.3 2.7 6 6 6h5.8c2.6 0 4.2-1.8 4.2-4.2V14\"/>"
      ++ "</svg>"),
    ("zoom_in", base size
      ++ "<circle cx=\"11\" cy=\"11\" r=\"6\"/>"
      ++ "<path d=\"M20 20l-3.5-3.5\"/>"
      ++ "<path d=\"M11 8.8v4.4\"/>"
      ++ "<path d=\"M8.8 11h4.4\"/>"
      ++ "</svg>"),
    ("zoom_out", base size
      ++ "<circle cx=\"11\" cy=\"11\" r=\"6\"/>"
      ++ "<path d=\"M20 20l-3.5-3.5\"/>"
      ++ "<path d=\"M8.8 11h4.4\"/>"
      ++ "</svg>"),
    ("show_all", base size
      ++ "<path d=\"M8 3H3v5\"/>"
      ++ "<path d=\"M16 3h5v5\"/>"
      ++ "<path d=\"M21 16v5h-5\"/>"
      ++ "<path d=\"M3 16v5h5\"/>"
      ++ "<path d=\"M12 9v6\"/>"
      ++ "<path d=\"M9 12h6\"/>"
      ++ "</svg>"),
    ("rotate_left", base size
      ++ "<path d=\"M8.2 6.2a8 8 0 1 1-2.2 5.8\"/>"
      ++ "<path d=\"M6 4v4h4\"/>"
      ++ "</svg>"),
    ("rotate_right", base size
      ++ "<path d=\"M15.8 6.2a8 8 0 1 0 2.2 5.8\"/>"
      ++ "<path d=\"M18 4v4h-4\"/>"
      ++ "</svg>"),
    ("reset_view", base size
      ++ "<path d=\"M21 12a9 9 0 1 1-2.6-6.4\"/>"
      ++ "<path d=\"M21 3v6h-6\"/>"
      ++ "</svg>"),
    ("edit", base size
      ++ "<path d=\"M12 20h9\"/>"
      ++ "<path d=\"M16.5 3.5a2.1 2.1 0 0 1 3 3L7 19l-4 1 1-4L16.5 3.5z\"/>"
      ++ "</svg>"),
    ("erase", base size
      ++ "<path d=\"M4 7h16\"/>"
      ++ "<path d=\"M6 7l1 14h10l1-14\"/>"
      ++ "<path d=\"M9 7V4h6v3\"/>"
      ++ "</svg>"),
    ("undo", base size
      ++ "<path d=\"M9 14l-4-4 4-4\"/>"
      ++ "<path d=\"M5 10h8a6 6 0 1 1 0 12h-2\"/>"
      ++ "</svg>") ]

/-- The dict comprehension on the last line of `toolbar_icons`, generalized
over the name→document table it ranges over:
`{k: _svg_icon(v, size=size) for k, v in table}`. -/
def build_icons (st : ModuleState) (table : List (String × String)) (size : Int) :
    List (String × QIcon) :=
  table.map fun kv => (kv.1, (svg_icon st kv.2 size).1)

/-- `toolbar_icons(size=24)`: builds the header and the ten documents and
returns the name→icon mapping; the module state (the `QSvgRenderer`
binding) is read but never written. -/
def toolbar_icons (st : ModuleState) (size : optParam Int 24) :
    List (String × QIcon) × ModuleState :=
  (build_icons st (svgs size) size, st)

/-- The ten icon names, in the order the source defines them. -/
def iconNames : List String :=
  ["pan", "zoom_in", "zoom_out", "show_all", "rotate_left",
   "rotate_right", "reset_view", "edit", "erase", "undo"]

/-- Spec-side restatement of the shared header, written from the spec's
words: width and height set to the requested size, a fixed square viewbox
`0 0 24 24` that does not scale with the size, no fill, black stroke of
width 1.4, round line caps and joins. -/
def specHeader (size : Int) : String :=
  "<svg xmlns=\"http://www.w3.org/2000/svg\" width=\"" ++ toString size
    ++ "\" height=\"" ++ toString size
    ++ "\" viewBox=\"0 0 24 24\" fill=\"none\" stroke=\"black\" stroke-width=\"1.4\" stroke-linecap=\"round\" stroke-linejoin=\"round\">"

/-- Spec-side table of the ten literal pictograph fragments (name →
path/shape elements), separated from the header and the closing tag. -/
def specFragments : List (String × String) :=
  [ ("pan",
      "<path d=\"M7 12V6.5a1.8 1.8 0 0 1 3.6 0V12\"/>"
      ++ "<path d=\"M10.6 12V5.5a1.8 1.8 0 0 1 3.6 0V12\"/>"
      ++ "<path d=\"M14.2 12V7.5a1.8 1.8 0 0 1 3.6 0V14\"/>"
      ++ "<path d=\"M6.5 12.5c-1.4-1-3.5-.1-3.5 1.7V16c0 3.3 2.7 6 6 6h5.8c2.6 0 4.2-1.8 4.2-4.2V14\"/>"),
    ("zoom_in",
      "<circle cx=\"11\" cy=\"11\" r=\"6\"/>"
      ++ "<path d=\"M20 20l-3.5-3.5\"/>"
      ++ "<path d=\"M11 8.8v4.4\"/>"
      ++ "<path d=\"M8.8 11h4.4\"/>"),
    ("zoom_out",
      "<circle cx=\"11\" cy=\"11\" r=\"6\"/>"
      ++ "<path d=\"M20 20l-3.5-3.5\"/>"
      ++ "<path d=\"M8.8 11h4.4\"/>"),
    ("show_all",
      "<path d=\"M8 3H3v5\"/>"
      ++ "<path d=\"M16 3h5v5\"/>"
      ++ "<path d=\"M21 16v5h-5\"/>"
      ++ "<path d=\"M3 16v5h5\"/>"
      ++ "<path d=\"M12 9v6\"/>"
      ++ "<path d=\"M9 12h6\"/>"),
    ("rotate_left",
      "<path d=\"M8.2 6.2a8 8 0 1 1-2.2 5.8\"/>"
      ++ "<path d=\"M6 4v4h4\"/>"),
    ("rotate_right",
      "<path d=\"M15.8 6.2a8 8 0 1 0 2.2 5.8\"/>"
      ++ "<path d=\"M18 4v4h-4\"/>"),
    ("reset_view",
      "<path d=\"M21 12a9 9 0 1 1-2.6-6.4\"/>"
      ++ "<path d=\"M21 3v6h-6\"/>"),
    ("edit",
      "<path d=\"M12 20h9\"/>"
      ++ "<path d=\"M16.5 3.5a2.1 2.1 0 0 1 3 3L7 19l-4 1 1-4L16.5 3.5z\"/>"),
    ("erase",
      "<path d=\"M4 7h16\"/>"
      ++ "<path d=\"M6 7l1 14h10l1-14\"/>"
      ++ "<path d=\"M9 7V4h6v3\"/>"),
    ("undo",
      "<path d=\"M9 14l-4-4 4-4\"/>"
      ++ "<path d=\"M5 10h8a6 6 0 1 1 0 12h-2\"/>") ]

/-- Spec-side reconstruction of the document table: for each name, the
shared header, then that name's literal fragment, then the closing tag. -/
def svgs_spec (size : Int) : List (String × String) :=
  specFragments.map fun kb => (kb.1, specHeader size ++ kb.2 ++ "</svg>")

-- ## Helper lemmas

theorem svg_icon_state (st : ModuleState) (svg : String) (size : Int)
    (bg : Option GlobalColor) : (svg_icon st svg size bg).2 = st := by
  unfold svg_icon
  split
  · rfl
  · rfl

theorem svg_icon_unavailable (st : ModuleState) (svg : String) (size : Int)
    (bg : Option GlobalColor) (h : st.qSvgRendererAvailable = false) :
    svg_icon st svg size bg = (QIcon.empty, st) := by
  unfold svg_icon
  simp [h]

theorem svg_icon_available_pos (st : ModuleState) (svg : String) (size : Int)
    (bg : Option GlobalColor) (hav : st.qSvgRendererAvailable = true)
    (hpos : 0 < size) :
    (svg_icon st svg size bg).1 =
      QIcon.ofPixmap ⟨size.toNat, size.toNat,
        PixContent.painted svg true
          (PixContent.filled (bg.getD GlobalColor.transparent))⟩ := by
  have hnn : size.toNat ≠ 0 := by omega
  unfold svg_icon QPixmap.create QPixmap.fill QPixmap.renderSvg QPixmap.isNull
  cases bg <;> simp [hav, hpos, hnn]

theorem mem_toolbar_icons (st : ModuleState) (size : Int)
    (kv : String × QIcon) (h : kv ∈ (toolbar_icons st size).1) :
    ∃ doc : String, (kv.1, doc) ∈ svgs size ∧ kv.2 = (svg_icon st doc size).1 := by
  unfold toolbar_icons build_icons at h
  rcases List.mem_map.1 h with ⟨ab, hab, heq⟩
  exact ⟨ab.2, by simpa [← heq] using hab, by simp [← heq]⟩

theorem svg_icon_available_nonpos (st : ModuleState) (svg : String) (size : Int)
    (bg : Option GlobalColor) (hav : st.qSvgRendererAvailable = true)
    (hnp : size ≤ 0) :
    (svg_icon st svg size bg).1 = QIcon.ofPixmap ⟨0, 0, PixContent.uninit⟩ := by
  have hng : ¬ (0 < size) := by omega
  unfold svg_icon QPixmap.create QPixmap.fill QPixmap.renderSvg QPixmap.isNull
  cases bg <;> simp [hav, hng]

theorem svgs_eq_spec (size : Int) : svgs size = svgs_spec size := by
  simp [svgs, svgs_spec, specFragments, specHeader, base, String.append_assoc]

theorem lookup_build_icons (st : ModuleState) (table : List (String × String))
    (size : Int) (k : String) :
    (build_icons st table size).lookup k =
      (table.lookup k).map (fun doc => (svg_icon st doc size).1) := by
  induction table with
  | nil => rfl
  | cons kv rest ih =>
      obtain ⟨k₀, v₀⟩ := kv
      unfold build_icons at ih ⊢
      by_cases h : k == k₀ <;> simp [List.lookup, h, ih]

-- ## Claims

/-- C1: For every size `s` (and either renderer state), `toolbar_icons(s)`
returns a mapping whose key sequence is exactly the ten fixed names
pan, zoom_in, zoom_out, show_all, rotate_left, rotate_right, reset_view,
edit, erase, undo — no more, no fewer. -/
theorem toolbar_icons_keys (st : ModuleState) (size : Int) :
    ((toolbar_icons st size).1).map Prod.fst = iconNames := rfl

/-- C3: When the SVG renderer import failed, `toolbar_icons` still returns
the full ten-entry mapping with every entry the empty icon `QIcon()` — no
exception is raised or propagated (the embedded functions are total) and
there is no partial failure; the module state is untouched. -/
theorem toolbar_icons_degraded (st : ModuleState) (size : Int)
    (h : st.qSvgRendererAvailable = false) :
    (toolbar_icons st size).1 = iconNames.map (fun k => (k, QIcon.empty)) ∧
      (toolbar_icons st size).2 = st := by
  obtain ⟨b⟩ := st
  cases h
  exact ⟨rfl, rfl⟩

/-- Witness for C3 at the concrete state where the import failed and
size 5. -/
theorem toolbar_icons_degraded_witness :
    (toolbar_icons ⟨false⟩ 5).1 = iconNames.map (fun k => (k, QIcon.empty)) ∧
      (toolbar_icons ⟨false⟩ 5).2 = ⟨false⟩ :=
  toolbar_icons_degraded ⟨false⟩ 5 rfl

/-- C4: `toolbar_icons` is deterministic and stateless: a call leaves the
module state exactly as it found it, and a second call at the same size
(in the state the first call left behind) returns an identical mapping —
pixel-identical bitmaps for every key, the mapping fully re-derived with
no caching. -/
theorem toolbar_icons_deterministic (st : ModuleState) (size : Int) :
    (toolbar_icons st size).2 = st ∧
      (toolbar_icons (toolbar_icons st size).2 size).1 =
        (toolbar_icons st size).1 :=
  ⟨rfl, rfl⟩

/-- C2: for every positive size (renderer available), every value in the
mapping returned by `toolbar_icons` is an icon wrapping a bitmap of exactly
`size × size` pixels. -/
theorem toolbar_icons_dims (st : ModuleState) (size : Int)
    (hav : st.qSvgRendererAvailable = true) (hpos : 0 < size) :
    ∀ kv ∈ (toolbar_icons st size).1, ∃ p : QPixmap,
      kv.2 = QIcon.ofPixmap p ∧ (p.width : Int) = size ∧ (p.height : Int) = size := by
  intro kv hkv
  rcases mem_toolbar_icons st size kv hkv with ⟨doc, _, h2⟩
  rw [h2, svg_icon_available_pos st doc size none hav hpos]
  exact ⟨_, rfl, by simpa using Int.toNat_of_nonneg hpos.le,
    by simpa using Int.toNat_of_nonneg hpos.le⟩

/-- Witness for C2 at the available state, size 3, first entry. -/
theorem toolbar_icons_dims_witness :
    ∃ p : QPixmap,
      ((toolbar_icons ⟨true⟩ 3).1.get ⟨0, by decide⟩).2 = QIcon.ofPixmap p ∧
        (p.width : Int) = 3 ∧ (p.height : Int) = 3 :=
  toolbar_icons_dims ⟨true⟩ 3 rfl (by decide) _ (List.get_mem _ _ _)

/-- C5: for every requested size, the ten documents built by
`toolbar_icons` are exactly the shared header — width and height set to
the size, the viewbox fixed at `0 0 24 24` independent of the size, no
fill, black stroke of width 1.4, round line caps and joins — concatenated
with that name's literal path/shape elements and the closing tag. -/
theorem toolbar_icons_documents (size : Int) : svgs size = svgs_spec size :=
  svgs_eq_spec size

/-- C6: every icon returned by `toolbar_icons` at a positive size
(renderer available) wraps a pixmap whose content is that name's document
rasterized with antialiasing over a uniform `Qt.transparent` fill — no
background override is passed, so the background is transparent. -/
theorem toolbar_icons_transparent (st : ModuleState) (size : Int)
    (hav : st.qSvgRendererAvailable = true) (hpos : 0 < size) :
    ∀ kv ∈ (toolbar_icons st size).1, ∃ doc : String,
      (kv.1, doc) ∈ svgs size ∧
        kv.2 = QIcon.ofPixmap ⟨size.toNat, size.toNat,
          PixContent.painted doc true (PixContent.filled GlobalColor.transparent)⟩ := by
  intro kv hkv
  rcases mem_toolbar_icons st size kv hkv with ⟨doc, hdoc, h2⟩
  exact ⟨doc, hdoc, by rw [h2]; exact svg_icon_available_pos st doc size none hav hpos⟩

/-- Witness for C6 at the available state, size 2, first entry. -/
theorem toolbar_icons_transparent_witness :
    ∃ doc : String,
      (((toolbar_icons ⟨true⟩ 2).1.get ⟨0, by decide⟩).1, doc) ∈ svgs 2 ∧
        ((toolbar_icons ⟨true⟩ 2).1.get ⟨0, by decide⟩).2 =
          QIcon.ofPixmap ⟨2, 2,
            PixContent.painted doc true (PixContent.filled GlobalColor.transparent)⟩ :=
  toolbar_icons_transparent ⟨true⟩ 2 rfl (by decide) _ (List.get_mem _ _ _)

/-- C7: the icon produced for a name depends only on that name's own
document (plus the size and module state): `toolbar_icons` is the generic
builder applied to the `svgs` table, and two tables that agree at a key
yield the same icon at that key, so removing or altering another name's
fragment leaves this key's bitmap unchanged. -/
theorem toolbar_icons_independent (st : ModuleState) (size : Int)
    (table₁ table₂ : List (String × String)) (k : String)
    (h : table₁.lookup k = table₂.lookup k) :
    (toolbar_icons st size).1 = build_icons st (svgs size) size ∧
      (build_icons st table₁ size).lookup k =
        (build_icons st table₂ size).lookup k := by
  refine ⟨rfl, ?_⟩
  rw [lookup_build_icons, lookup_build_icons, h]

/-- Witness for C7: dropping the entry of another name does not change the
icon looked up for key b. -/
theorem toolbar_icons_independent_witness :
    (toolbar_icons ⟨true⟩ 2).1 = build_icons ⟨true⟩ (svgs 2) 2 ∧
      (build_icons ⟨true⟩ [("a", "x"), ("b", "y")] 2).lookup "b" =
        (build_icons ⟨true⟩ [("b", "y")] 2).lookup "b" :=
  toolbar_icons_independent ⟨true⟩ 2 [("a", "x"), ("b", "y")] [("b", "y")] "b"
    (by decide)

/-- C8: calling `toolbar_icons` with no argument uses the default size 24
and yields 24 × 24 icons for all ten keys. -/
theorem toolbar_icons_default (st : ModuleState)
    (hav : st.qSvgRendererAvailable = true) :
    toolbar_icons st = toolbar_icons st 24 ∧
      ((toolbar_icons st).1).map Prod.fst = iconNames ∧
      ∀ kv ∈ (toolbar_icons st).1, ∃ p : QPixmap,
        kv.2 = QIcon.ofPixmap p ∧ p.width = 24 ∧ p.height = 24 := by
  refine ⟨rfl, rfl, ?_⟩
  intro kv hkv
  rcases mem_toolbar_icons st 24 kv hkv with ⟨doc, _, h2⟩
  rw [h2, svg_icon_available_pos st doc 24 none hav (by decide)]
  exact ⟨_, rfl, rfl, rfl⟩

/-- Witness for C8 at the available state, first entry. -/
theorem toolbar_icons_default_witness :
    ∃ p : QPixmap,
      ((toolbar_icons ⟨true⟩).1.get ⟨0, by decide⟩).2 = QIcon.ofPixmap p ∧
        p.width = 24 ∧ p.height = 24 :=
  (toolbar_icons_default ⟨true⟩ rfl).2.2 _ (List.get_mem _ _ _)

/-- C9: `toolbar_icons` performs no validation of the size: for any
non-positive size it still returns the full ten-key mapping without
raising (the embedded functions are total), the size is interpolated
unchecked into the width/height attributes of every document, and the
bitmap dimensions are taken directly from the size, so non-positive sizes
yield the null pixmap (zero dimensions, nothing filled or painted) wrapped
as a null icon rather than an error. -/
theorem toolbar_icons_nonpositive (st : ModuleState) (size : Int)
    (hnp : size ≤ 0) :
    ((toolbar_icons st size).1).map Prod.fst = iconNames ∧
      (∀ kv ∈ svgs size, ∃ body : String, kv.2 = base size ++ body) ∧
      (st.qSvgRendererAvailable = true →
        ∀ kv ∈ (toolbar_icons st size).1,
          kv.2 = QIcon.ofPixmap ⟨0, 0, PixContent.uninit⟩ ∧ kv.2.isNull) := by
  refine ⟨rfl, ?_, ?_⟩
  · intro kv hkv
    rw [svgs_eq_spec] at hkv
    rcases List.mem_map.1 hkv with ⟨kb, _, heq⟩
    refine ⟨kb.2 ++ "</svg>", ?_⟩
    rw [← heq]
    show specHeader size ++ kb.2 ++ "</svg>" = base size ++ (kb.2 ++ "</svg>")
    rw [String.append_assoc]
    rfl
  · intro hav kv hkv
    rcases mem_toolbar_icons st size kv hkv with ⟨doc, _, h2⟩
    rw [h2, svg_icon_available_nonpos st doc size none hav hnp]
    exact ⟨rfl, Or.inl rfl⟩

/-- Witness for C9 at the available state and size -3, first entries. -/
theorem toolbar_icons_nonpositive_witness :
    ((toolbar_icons ⟨true⟩ (-3)).1).map Prod.fst = iconNames ∧
      (∃ body : String, ((svgs (-3)).get ⟨0, by decide⟩).2 = base (-3) ++ body) ∧
      ((toolbar_icons ⟨true⟩ (-3)).1.get ⟨0, by decide⟩).2 =
        QIcon.ofPixmap ⟨0, 0, PixContent.uninit⟩ :=
  ⟨(toolbar_icons_nonpositive ⟨true⟩ (-3) (by decide)).1,
   (toolbar_icons_nonpositive ⟨true⟩ (-3) (by decide)).2.1 _ (List.get_mem _ _ _),
   ((toolbar_icons_nonpositive ⟨true⟩ (-3) (by decide)).2.2 rfl _
     (List.get_mem _ _ _)).1⟩

/-- C10: whenever the renderer is available, `_svg_icon` fills the whole
bitmap — with transparent, or with the given background color when one is
passed — before any painting, so every pixel of the returned bitmap is
defined (for a null bitmap there are no pixels): the content is the
document painted with antialiasing over a uniform fill, even when the
document draws nothing. -/
theorem svg_icon_pixels_defined (st : ModuleState) (svg : String) (size : Int)
    (bg : Option GlobalColor) (hav : st.qSvgRendererAvailable = true) :
    ∃ p : QPixmap,
      (svg_icon st svg size bg).1 = QIcon.ofPixmap p ∧
        (p.width = 0 ∧ p.height = 0 ∨ p.content.allDefined = true) ∧
        (0 < size →
          p.content =
            PixContent.painted svg true
              (PixContent.filled (bg.getD GlobalColor.transparent))) := by
  by_cases hpos : 0 < size
  · refine ⟨_, svg_icon_available_pos st svg size bg hav hpos, Or.inr rfl, ?_⟩
    intro
    rfl
  · refine ⟨_, svg_icon_available_nonpos st svg size bg hav (by omega), ?_, ?_⟩
    · exact Or.inl ⟨rfl, rfl⟩
    · intro h
      exact absurd h hpos

/-- Witness for C10 at the available state, an arbitrary document, size 4
and an explicit solid background. -/
theorem svg_icon_pixels_defined_witness :
    ∃ p : QPixmap,
      (svg_icon ⟨true⟩ "<svg/>" 4 (some (GlobalColor.other 7))).1 =
          QIcon.ofPixmap p ∧
        (p.width = 0 ∧ p.height = 0 ∨ p.content.allDefined = true) ∧
        (0 < (4 : Int) →
          p.content =
            PixContent.painted "<svg/>" true
              (PixContent.filled (GlobalColor.other 7))) :=
  svg_icon_pixels_defined ⟨true⟩ "<svg/>" 4 (some (GlobalColor.other 7)) rfl

end CADIcons
